import Mathlib

/-!
Verification of the feedback analytics engine (`app/analytics.py`,
class `FeedbackTopicExtractor`) against its natural-language specification.

The Python module is shallowly embedded: every operation the claims touch is
translated into a Lean function over `String`, `List`, `ℚ`, `ℤ` and `ℝ`.
Python floats are modelled as exact rationals (the module performs only
arithmetic whose rounding never matters for the stated properties), Python
`None` as `Option`, Python dicts either as structures (fixed key sets) or as
association lists built in insertion order (dynamic key sets).  `np.log` is
modelled as `Real.log`.
-/

namespace Analytics

/-- ASCII reading of the regex class `\w` (word character): letters, digits
and underscore.  All lexicon entries and all inputs used in witnesses are
ASCII, where this coincides with Python `re`. -/
def isWordChar (c : Char) : Bool :=
  c.isAlpha || c.isDigit || c = '_'

/-- `DUTCH_STOPWORDS` from `analytics.py` (the Python set literal contains
duplicates; the set they denote is listed once each). -/
def DUTCH_STOPWORDS : List String :=
  ["de", "het", "een", "en", "van", "in", "op", "te", "voor", "met",
   "is", "zijn", "was", "er", "maar", "om", "aan", "dat", "die", "dit",
   "als", "bij", "dan", "heeft", "hem", "hier", "hun",
   "ik", "je", "kan", "meer", "mijn", "niet", "nog", "nu", "ook", "of",
   "over", "onder", "uit", "want", "waren", "wat", "werd",
   "wie", "wordt", "zeer", "zich", "zo", "zonder", "naar", "door", "moet",
   "kunnen", "hebben", "had", "ben", "bent", "deze", "geen", "geweest",
   "haar", "heel", "iets", "iemand", "kon", "mag",
   "veel", "wel", "worden", "zal", "zelf", "zou"]

/-- `POSITIVE_WORDS` from `analytics.py`. -/
def POSITIVE_WORDS : List String :=
  ["goed", "geweldig", "uitstekend", "prima", "mooi", "schoon", "fijn",
   "prettig", "comfortabel", "ruim", "stil", "rustig", "tevreden", "perfect",
   "excellent", "aangenaam", "handig", "snel", "helder", "netjes", "proper"]

/-- `NEGATIVE_WORDS` from `analytics.py`. -/
def NEGATIVE_WORDS : List String :=
  ["slecht", "vies", "vuil", "lawaai", "luidruchtig", "klein", "krap",
   "vervelend", "irritant", "traag", "gebrekkig", "kapot", "defect",
   "oncomfortabel", "onhandig", "onprettig", "teleurstellend", "zwak",
   "rommelig", "smerig", "stoffig", "koud", "warm"]

/-- `TOPIC_KEYWORDS` from `analytics.py`, in source (dict insertion) order. -/
def TOPIC_KEYWORDS : List (String × List String) :=
  [("netheid", ["schoon", "vuil", "vies", "netjes", "proper", "smerig", "rommelig", "stoffig"]),
   ("wifi", ["wifi", "internet", "verbinding", "netwerk", "langzaam", "snel", "connectie"]),
   ("ruimte", ["ruimte", "ruim", "krap", "klein", "groot", "plek", "plaats", "vol"]),
   ("geluid", ["stil", "lawaai", "geluid", "rustig", "luidruchtig", "herrie", "geluidsoverlast"]),
   ("comfort", ["comfortabel", "stoel", "bureau", "ergonomisch", "zit", "rug", "pijn"]),
   ("faciliteiten", ["koffie", "toilet", "printer", "beamer", "apparatuur", "voorzieningen"]),
   ("temperatuur", ["warm", "koud", "temperatuur", "airco", "verwarming", "tocht"]),
   ("locatie", ["locatie", "bereikbaar", "parkeren", "afstand", "centraal", "ligging"])]

/-- The critical-topic set used by `calculate_urgency_score`. -/
def critical_topics : List String :=
  ["wifi", "netheid", "faciliteiten", "comfort", "slecht", "problemen"]

/-- The extractor configuration stored by `FeedbackTopicExtractor.__init__`:
the constructor body only assigns the two arguments to attributes (and resets
two caches); it performs no validation whatsoever. -/
structure FeedbackTopicExtractor where
  min_word_freq : ℤ
  num_topics : ℤ
deriving Repr, DecidableEq

/-- `FeedbackTopicExtractor.__init__(min_word_freq, num_topics)`. -/
def init (min_word_freq : ℤ) (num_topics : ℤ) : FeedbackTopicExtractor :=
  { min_word_freq := min_word_freq, num_topics := num_topics }

/-- Split a character list at whitespace characters.  Together with the
caller's non-empty filter this is Python `str.split()` (split on whitespace
runs, dropping empty parts). -/
def splitWsAux (cur : List Char) : List Char → List (List Char)
  | [] => [cur.reverse]
  | c :: cs =>
    if c.isWhitespace then cur.reverse :: splitWsAux [] cs
    else splitWsAux (c :: cur) cs

/-- `preprocess_text`: lowercase (`Char.toLower`, the ASCII reading of
`str.lower()`), replace every character that is neither a word character nor
whitespace by a space (`re.sub(..., ' ', text)`), split on whitespace, and
drop stopwords and tokens of length ≤ 2. -/
def preprocess_text (text : String) : List String :=
  if text = "" then []
  else
    let lowered := (text.data.map Char.toLower).map
      (fun c => if isWordChar c || c.isWhitespace then c else ' ')
    let tokens := ((splitWsAux [] lowered).map String.mk).filter (fun t => t ≠ "")
    tokens.filter (fun token => !(DUTCH_STOPWORDS.contains token) && token.length > 2)

/-- The five nullable numeric ratings handed to the engine (dict built in
`analyze_feedback_batch`, keys `netheid`, `wifi`, `ruimte`, `stilte`,
`algemeen`). -/
structure Scores where
  netheid : Option ℤ
  wifi : Option ℤ
  ruimte : Option ℤ
  stilte : Option ℤ
  algemeen : Option ℤ
deriving Repr, DecidableEq

/-- `[s for s in scores.values() if s is not None]` in dict insertion order. -/
def validScores (scores : Scores) : List ℤ :=
  [scores.netheid, scores.wifi, scores.ruimte, scores.stilte, scores.algemeen].filterMap id

/-- Arithmetic mean of a list of integers as a rational (`np.mean`):
the integer sum divided by the length. -/
def listMean (l : List ℤ) : ℚ :=
  (l.sum : ℚ) / l.length

/-- `_sentiment_label`: fixed thresholds mapping a score to a label. -/
def sentiment_label (score : ℚ) : String :=
  if score > 0.3 then "positief"
  else if score < -0.3 then "negatief"
  else "neutraal"

/-- Result dictionary of `extract_sentiment`. -/
structure SentimentResult where
  sentiment_score : ℚ
  label : String
  positive_words : ℕ
  negative_words : ℕ
  avg_numeric_score : ℚ
deriving Repr, DecidableEq

/-- `positive_count` in `extract_sentiment`:
`len(set(tokens) & POSITIVE_WORDS)`. -/
def positiveCount (text : String) : ℕ :=
  (((preprocess_text text).dedup).filter (fun t => POSITIVE_WORDS.contains t)).length

/-- `negative_count` in `extract_sentiment`:
`len(set(tokens) & NEGATIVE_WORDS)`. -/
def negativeCount (text : String) : ℕ :=
  (((preprocess_text text).dedup).filter (fun t => NEGATIVE_WORDS.contains t)).length

/-- `avg_score` in `extract_sentiment`: mean of the non-null ratings, or the
neutral default 3.0 when none are supplied. -/
def avgScore (scores : Scores) : ℚ :=
  if validScores scores = [] then 3 else listMean (validScores scores)

/-- `text_sentiment_normalized` in `extract_sentiment`:
`(positive_count - negative_count) / len(tokens)`, or 0 for an empty token
sequence. -/
def textSentimentNormalized (text : String) : ℚ :=
  let tokens := preprocess_text text
  if tokens.length > 0 then
    (((positiveCount text : ℤ) - (negativeCount text : ℤ) : ℤ) : ℚ) / (tokens.length : ℚ)
  else 0

/-- `score_sentiment_normalized` in `extract_sentiment`: `(avg_score - 3) / 2`
(3 is neutral on the 1-5 scale). -/
def scoreSentimentNormalized (scores : Scores) : ℚ :=
  (avgScore scores - 3) / 2

/-- `extract_sentiment`: lexicon counts over the token set, mean of the
non-null ratings (default 3.0), normalisation of both components to [-1, 1]
and the fixed 0.4/0.6 linear blend. -/
def extract_sentiment (text : String) (scores : Scores) : SentimentResult :=
  let combined_sentiment : ℚ :=
    0.4 * textSentimentNormalized text + 0.6 * scoreSentimentNormalized scores
  { sentiment_score := combined_sentiment
    label := sentiment_label combined_sentiment
    positive_words := positiveCount text
    negative_words := negativeCount text
    avg_numeric_score := avgScore scores }

/-- `len(set(tokens) & set(keywords))`: number of distinct tokens that are
keywords of the topic. -/
def matchCount (tokens : List String) (keywords : List String) : ℕ :=
  ((tokens.dedup).filter (fun t => keywords.contains t)).length

/-- Stable insertion of an element into a list kept in descending key order.
The sort below processes the input from the right, so the inserted element
originally preceded everything in the list: placing it before equal keys
(`≥`) reproduces Python's stable `list.sort(key=..., reverse=True)`, where
ties keep their original order. -/
def insertDescBy {α : Type} (key : α → ℚ) (x : α) : List α → List α
  | [] => [x]
  | y :: ys => if key x ≥ key y then x :: y :: ys else y :: insertDescBy key x ys

/-- Stable sort in descending key order (insertion sort; stable, hence
extensionally equal to Python's stable descending sort). -/
def sortDescBy {α : Type} (key : α → ℚ) : List α → List α
  | [] => []
  | x :: xs => insertDescBy key x (sortDescBy key xs)

/-- `detect_topics`: keyword matching per topic, relevance = matches / number
of tokens, topics with zero matches dropped, result sorted by descending
relevance. -/
def detect_topics (tokens : List String) : List (String × ℚ) :=
  if tokens = [] then []
  else
    let topic_scores := TOPIC_KEYWORDS.filterMap (fun p =>
      let m := matchCount tokens p.2
      if m > 0 then some (p.1, (m : ℚ) / (tokens.length : ℚ)) else none)
    sortDescBy (fun x => x.2) topic_scores

/-- Step 1 of `calculate_urgency_score`: the base component from the numeric
ratings (100 minus the achieved percentage, or the default 50 when no rating
is present). -/
def urgencyBase (scores : Scores) : ℚ :=
  let valid_scores := validScores scores
  if valid_scores ≠ [] then
    let total_actual : ℚ := (valid_scores.sum : ℚ)
    let max_possible : ℚ := (valid_scores.length : ℚ) * 5
    100 - total_actual / max_possible * 100
  else 50

/-- Step 2 of `calculate_urgency_score`: the sentiment addend. -/
def sentimentAddend (sentiment_score : ℚ) : ℚ :=
  if sentiment_score < -0.5 then 30
  else if sentiment_score < -0.2 then 20
  else if sentiment_score < 0 then 10
  else 0

/-- Step 3 of `calculate_urgency_score`: `10 × relevance` for each critical
topic among the top 3. -/
def topicAddend (topics : List (String × ℚ)) : ℚ :=
  (((topics.take 3).filter (fun p => critical_topics.contains p.1)).map
    (fun p => 10 * p.2)).sum

/-- Step 4 of `calculate_urgency_score`: the negative-word addend. -/
def negWordAddend (negative_count : ℕ) : ℚ :=
  if negative_count ≥ 3 then 15
  else if negative_count ≥ 2 then 10
  else if negative_count ≥ 1 then 5
  else 0

/-- The value of the local `urgency` accumulator in `calculate_urgency_score`
just before the final clamp: the sum of the four components. -/
def urgencyUnclamped (sentiment : SentimentResult) (scores : Scores)
    (topics : List (String × ℚ)) : ℚ :=
  urgencyBase scores + sentimentAddend sentiment.sentiment_score
    + topicAddend topics + negWordAddend sentiment.negative_words

/-- `calculate_urgency_score`: the four components, clamped to [0, 100] by
`max(0, min(urgency, 100))`. -/
def calculate_urgency_score (sentiment : SentimentResult) (scores : Scores)
    (topics : List (String × ℚ)) : ℚ :=
  max 0 (min (urgencyUnclamped sentiment scores topics) 100)

/-- The per-item urgency pipeline of `analyze_feedback_batch` (lines 630-645):
sentiment from the raw text and ratings, topics from the preprocessed tokens,
then `calculate_urgency_score`. -/
def analyzeUrgency (text : String) (scores : Scores) : ℚ :=
  calculate_urgency_score (extract_sentiment text scores) scores
    (detect_topics (preprocess_text text))

/-- `calculate_basic_score`: the achieved rating percentage (0 when no rating
is present). -/
def calculate_basic_score (scores : Scores) : ℚ :=
  let valid_scores := validScores scores
  if valid_scores = [] then 0
  else
    let total_actual : ℚ := (valid_scores.sum : ℚ)
    let max_possible : ℚ := (valid_scores.length : ℚ) * 5
    total_actual / max_possible * 100

/-- Number of documents in which a token occurs (the `doc_freq` Counter of
`calculate_idf`). -/
def numDocsContaining (documents : List (List String)) (t : String) : ℕ :=
  (documents.filter (fun d => d.contains t)).length

/-- The document-frequency table of `calculate_idf`: one entry per distinct
token of the corpus. -/
def docFreq (documents : List (List String)) : List (String × ℕ) :=
  (documents.flatten.dedup).map (fun t => (t, numDocsContaining documents t))

/-- `calculate_idf`: for each token whose document frequency reaches
`min_word_freq`, the IDF value `np.log(num_docs / freq)`; an empty corpus
yields an empty mapping.  `np.log` is `Real.log`, so this one definition (and
`calculate_tfidf` below) is not executable; every argument fed to the
logarithm is computed by the executable `docFreq`. -/
noncomputable def calculate_idf (min_word_freq : ℤ) (documents : List (List String)) :
    List (String × ℝ) :=
  if documents = [] then []
  else
    ((docFreq documents).filter (fun p => min_word_freq ≤ (p.2 : ℤ))).map
      (fun p => (p.1, Real.log ((documents.length : ℝ) / (p.2 : ℝ))))

/-- `calculate_tf`: occurrence count over total token count per distinct
token; empty input yields an empty mapping. -/
def calculate_tf (tokens : List String) : List (String × ℚ) :=
  if tokens = [] then []
  else tokens.dedup.map (fun t => (t, (tokens.count t : ℚ) / (tokens.length : ℚ)))

/-- Python dict lookup on an association list (first matching key). -/
def assocLookup {β : Type} (k : String) : List (String × β) → Option β
  | [] => none
  | p :: rest => if p.1 = k then some p.2 else assocLookup k rest

/-- `calculate_tfidf`: `tf × idf` for every token present in both maps;
tokens absent from the IDF map are dropped, not kept with weight 0. -/
noncomputable def calculate_tfidf (tf : List (String × ℚ)) (idf : List (String × ℝ)) :
    List (String × ℝ) :=
  tf.filterMap (fun p => (assocLookup p.1 idf).map (fun i => (p.1, (p.2 : ℝ) * i)))

/-! ### The summarizer (`summarize_text`, Strategy B)

The Python function works on strings with `re`; the embedding works on
`List Char`.  Each `re.sub`/`re.split` pattern of the source is implemented
as a dedicated scanner.  The scanners that skip a variable number of
characters use a fuel argument initialised to the input length; every step
consumes at least one character, so the fuel never runs out on the actual
input. -/

/-- The summarizer's own stopword set (lines 401-414; distinct from
`DUTCH_STOPWORDS`: it lacks `niet` and adds the fillers of the last rows). -/
def summary_stopwords : List String :=
  ["de", "het", "een", "en", "van", "in", "op", "te", "voor", "met",
   "is", "zijn", "was", "er", "maar", "om", "aan", "dat", "die", "dit",
   "als", "bij", "dan", "heeft", "hem", "hier", "hun", "ik", "je",
   "kan", "meer", "mijn", "nog", "nu", "ook", "of", "over",
   "onder", "uit", "want", "waren", "wat", "werd", "wie",
   "wordt", "zeer", "zich", "zo", "zonder", "naar", "door", "moet",
   "hebben", "had", "ben", "bent", "deze", "geen", "geweest", "haar",
   "heel", "iets", "iemand", "kon", "kunnen", "mag", "veel", "wel",
   "zal", "zelf", "zou", "altijd", "alleen", "andere", "beide",
   "dus", "echter", "eerst", "eigenlijk", "erg", "gewoon",
   "hoe", "juist", "meestal", "misschien", "omdat", "vaak", "vooral",
   "waar", "waarom", "weinig", "zoals"]

/-- `subject_words` (topic anchor nouns) of `summarize_text`. -/
def subject_words : List String :=
  ["wifi", "internet", "verbinding", "netwerk",
   "bureau", "stoel", "scherm", "toetsenbord", "muis", "tafel", "desk",
   "ruimte", "kamer", "zaal", "locatie", "plaats", "kantoor",
   "geluid", "lawaai", "stil", "luid", "herrie", "ruis",
   "temperatuur", "warm", "koud", "airco", "verwarming",
   "licht", "verlichting", "lamp", "donker", "helder",
   "toilet", "wc", "badkamer", "keuken", "koffie",
   "printer", "beamer", "apparatuur", "computer"]

/-- `keep_words` (always preserved) of `summarize_text`. -/
def keep_words : List String :=
  ["vies", "vuil", "schoon", "netjes", "proper", "smerig", "stoffig",
   "goed", "slecht", "top", "prima", "uitstekend", "fantastisch",
   "probleem", "storing", "defect", "kapot", "werkt", "functioneert",
   "klein", "groot", "ruim", "krap", "beperkt", "vol",
   "fijn", "prettig", "comfortabel", "oncomfortabel", "aangenaam",
   "snel", "traag", "langzaam", "rap", "vlot", "minpunt", "niks"]

/-- `word_replacements` of `summarize_text` (the source dict literal repeats
the key `stomme`; a Python dict keeps one entry). -/
def word_replacements : List (String × String) :=
  [("niks", "slecht"), ("stomme", "slecht"), ("minpunt", "probleem"),
   ("helemaal", ""), ("enige", ""), ("af", "weg"), ("toe", ""),
   ("viel", "weg"), ("trekt", "werkt"), ("soms", "vaak")]

/-- Match a literal character sequence at the head of the input, returning
the rest. -/
def matchLit (w : List Char) (cs : List Char) : Option (List Char) :=
  if cs.take w.length = w then some (cs.drop w.length) else none

/-- Consume one-or-more whitespace characters (regex `\s+`, greedy).  The
patterns below never need to backtrack into a shorter run because whitespace
and the following literal word characters are disjoint. -/
def eatWs1 : List Char → Option (List Char)
  | [] => none
  | c :: cs => if c.isWhitespace then some (cs.dropWhile Char.isWhitespace) else none

/-- Regex `\b` after a word: the next character is not a word character. -/
def boundaryAfter (cs : List Char) : Bool :=
  match cs with
  | [] => true
  | c :: _ => !isWordChar c

/-- Maximal word-character run (regex `\w+`, greedy) and the rest. -/
def takeWordRun : List Char → (List Char × List Char)
  | [] => ([], [])
  | c :: cs =>
    if isWordChar c then
      let p := takeWordRun cs
      (c :: p.1, p.2)
    else ([], c :: cs)

/-- `re.sub(r'\btrekt\s+niks\b', 'werkt slecht', ...)`: matcher at one
position (the driver guarantees the boundary before the match). -/
def matchTrektNiks (cs : List Char) : Option (List Char × List Char) := do
  let r1 ← matchLit "trekt".data cs
  let r2 ← eatWs1 r1
  let r3 ← matchLit "niks".data r2
  if boundaryAfter r3 then some ("werkt slecht".data, r3) else none

/-- `re.sub(r'\baf\s+en?\s+toe\s+(weg\s+)?viel\b', 'wifi vaak weg', ...)`.
The alternatives of `en?` and of the optional group start with distinct
characters, so trying the longer alternative first is a faithful reading of
the regex engine's backtracking. -/
def matchAfEnToeViel (cs : List Char) : Option (List Char × List Char) := do
  let r1 ← matchLit "af".data cs
  let r2 ← eatWs1 r1
  let r3 ← (do
      let x ← matchLit "en".data r2
      eatWs1 x) <|> (do
      let x ← matchLit "e".data r2
      eatWs1 x)
  let r4 ← matchLit "toe".data r3
  let r5 ← eatWs1 r4
  let r6 ← (do
      let x ← matchLit "weg".data r5
      let y ← eatWs1 x
      matchLit "viel".data y) <|> matchLit "viel".data r5
  if boundaryAfter r6 then some ("wifi vaak weg".data, r6) else none

/-- `re.sub(r'\benige\s+minpunt\b', 'probleem', ...)`. -/
def matchEnigeMinpunt (cs : List Char) : Option (List Char × List Char) := do
  let r1 ← matchLit "enige".data cs
  let r2 ← eatWs1 r1
  let r3 ← matchLit "minpunt".data r2
  if boundaryAfter r3 then some ("probleem".data, r3) else none

/-- `re.sub(r'\bhelemaal\s+(\w+)\s+stomme\b', r'\1 slecht', ...)` with its
capture group. -/
def matchHelemaalStomme (cs : List Char) : Option (List Char × List Char) := do
  let r1 ← matchLit "helemaal".data cs
  let r2 ← eatWs1 r1
  let cap := takeWordRun r2
  if cap.1 = [] then none
  else do
    let r4 ← eatWs1 cap.2
    let r5 ← matchLit "stomme".data r4
    if boundaryAfter r5 then some (cap.1 ++ (" slecht".data), r5) else none

/-- `re.sub(r'\bsoms\s+weg\b', 'wifi vaak weg', ...)`. -/
def matchSomsWeg (cs : List Char) : Option (List Char × List Char) := do
  let r1 ← matchLit "soms".data cs
  let r2 ← eatWs1 r1
  let r3 ← matchLit "weg".data r2
  if boundaryAfter r3 then some ("wifi vaak weg".data, r3) else none

/-- One full `re.sub` pass: scan left to right, try the matcher at every
position preceded by a word boundary, replace non-overlapping matches.  All
five patterns end in a word character followed by `\b`, so scanning resumes
with `prevIsWord = true` after a replacement, exactly as in the original
string. -/
def applySubGo (matchAt : List Char → Option (List Char × List Char)) :
    ℕ → Bool → List Char → List Char
  | 0, _, cs => cs
  | _ + 1, _, [] => []
  | fuel + 1, prevIsWord, c :: rest =>
    if prevIsWord then c :: applySubGo matchAt fuel (isWordChar c) rest
    else
      match matchAt (c :: rest) with
      | some p => p.1 ++ applySubGo matchAt fuel true p.2
      | none => c :: applySubGo matchAt fuel (isWordChar c) rest

/-- Apply one rewrite rule over the whole text (`re.sub`). -/
def applySub (matchAt : List Char → Option (List Char × List Char))
    (cs : List Char) : List Char :=
  applySubGo matchAt cs.length false cs

/-- `re.split(r',\s*', ...)`: split at each comma, also consuming the
whitespace that follows it.  Empty parts are kept, as `re.split` keeps them. -/
def splitCommaWsGo : ℕ → List Char → List Char → List (List Char)
  | 0, cur, cs => [cur.reverse ++ cs]
  | _ + 1, cur, [] => [cur.reverse]
  | fuel + 1, cur, c :: cs =>
    if c = ',' then cur.reverse :: splitCommaWsGo fuel [] (cs.dropWhile Char.isWhitespace)
    else splitCommaWsGo fuel (c :: cur) cs

def splitCommaWs (cs : List Char) : List (List Char) :=
  splitCommaWsGo cs.length [] cs

/-- The separator `\s+en\s+` at the head of the input. -/
def matchEnSep (cs : List Char) : Option (List Char) := do
  let r1 ← eatWs1 cs
  let r2 ← matchLit "en".data r1
  eatWs1 r2

/-- `re.split(r'\s+en\s+', ...)`. -/
def splitEnGo : ℕ → List Char → List Char → List (List Char)
  | 0, cur, cs => [cur.reverse ++ cs]
  | _ + 1, cur, [] => [cur.reverse]
  | fuel + 1, cur, c :: rest =>
    match matchEnSep (c :: rest) with
    | some rest2 => cur.reverse :: splitEnGo fuel [] rest2
    | none => splitEnGo fuel (c :: cur) rest

def splitEn (cs : List Char) : List (List Char) :=
  splitEnGo cs.length [] cs

def isSentSep (c : Char) : Bool :=
  c = '.' || c = '!' || c = '?'

/-- `re.split(r'[.!?]+', ...)`: split at runs of sentence punctuation. -/
def splitSentGo : ℕ → List Char → List Char → List (List Char)
  | 0, cur, cs => [cur.reverse ++ cs]
  | _ + 1, cur, [] => [cur.reverse]
  | fuel + 1, cur, c :: cs =>
    if isSentSep c then cur.reverse :: splitSentGo fuel [] (cs.dropWhile isSentSep)
    else splitSentGo fuel (c :: cur) cs

def splitSentences (cs : List Char) : List (List Char) :=
  splitSentGo cs.length [] cs

/-- `str.strip()`: remove leading and trailing whitespace. -/
def stripWs (cs : List Char) : List Char :=
  ((cs.dropWhile Char.isWhitespace).reverse.dropWhile Char.isWhitespace).reverse

/-- `re.findall(r'\b\w+\b|[.!?]', ...)`: maximal word runs and single
sentence-punctuation characters, in order. -/
def findWordsGo : ℕ → List Char → List (List Char)
  | 0, _ => []
  | _ + 1, [] => []
  | fuel + 1, c :: cs =>
    if isWordChar c then
      let p := takeWordRun (c :: cs)
      p.1 :: findWordsGo fuel p.2
    else if isSentSep c then [c] :: findWordsGo fuel cs
    else findWordsGo fuel cs

def findWords (cs : List Char) : List (List Char) :=
  findWordsGo cs.length cs

/-- Python `str.isalnum()` (ASCII reading): non-empty and all alphanumeric
(an underscore makes it false, so such a token is skipped like punctuation). -/
def pyIsAlnum (w : String) : Bool :=
  w.length > 0 && w.data.all Char.isAlphanum

/-- The word-filter loop of `summarize_text`: replacements first, then
subject words, keep words, stopword removal, and keep the rest.  (The
source's `current_subject` variable is assigned but never read, so it is not
modelled.) -/
def filterWords : List String → List String
  | [] => []
  | w :: ws =>
    if !(pyIsAlnum w) then filterWords ws
    else
      match assocLookup w word_replacements with
      | some repl => if repl ≠ "" then repl :: filterWords ws else filterWords ws
      | none =>
        if subject_words.contains w then w :: filterWords ws
        else if keep_words.contains w then w :: filterWords ws
        else if summary_stopwords.contains w then filterWords ws
        else w :: filterWords ws

/-- The `cleaned_words` loop: drop empty strings and consecutive
duplicates. -/
def cleanWords (l : List String) : List String :=
  l.foldl (fun acc w =>
    if w ≠ "" && (acc = [] || acc.getLast? ≠ some w) then acc ++ [w] else acc) []

/-- `clean_part[0].upper() + clean_part[1:]` (and `.upper()` of a one-character
string is the same single character uppercased). -/
def capitalizeFirst (s : String) : String :=
  match s.data with
  | [] => ""
  | c :: cs => String.mk (c.toUpper :: cs)

/-- `sep.join(parts)`. -/
def joinSep (sep : String) : List String → String
  | [] => ""
  | [x] => x
  | x :: xs => x ++ sep ++ joinSep sep xs

/-- Python `str.lower()` (ASCII reading). -/
def strLower (s : String) : String :=
  String.mk (s.data.map Char.toLower)

/-- Python `text.split()`: split on whitespace runs, dropping empty parts. -/
def pySplit (s : String) : List String :=
  ((splitWsAux [] s.data).map String.mk).filter (fun t => t ≠ "")

/-- The per-sentence body of the summarizer's triple loop: strip, skip short
sentences, tokenize, filter, clean, join and capitalize. -/
def sentenceToBullet (sentence : List Char) : Option String :=
  let s := stripWs sentence
  if s.length < 3 then none
  else
    let words := (findWords s).map String.mk
    let cleaned := cleanWords (filterWords words)
    if cleaned.length ≥ 1 then
      let clean_part := capitalizeFirst (joinSep " " cleaned)
      if clean_part ≠ "" then some clean_part else none
    else none

/-- Accumulate bullet points in order, skipping bullets already present
(`clean_part not in bullet_points`). -/
def collectBullets (parts : List (List Char)) : List String :=
  parts.foldl (fun acc sentence =>
    match sentenceToBullet sentence with
    | some b => if acc.contains b then acc else acc ++ [b]
    | none => acc) []

/-- `summarize_text` (Strategy B): lowercase, five idiom rewrites, split into
clauses on commas and the conjunction `en` and sentence punctuation, filter
each clause, and render the surviving clauses as bullet points (bare when
only one survives), falling back to the first three raw words.  The
`max_length` parameter is accepted and never used, exactly as in the source
(its docstring says "genegeerd" - ignored). -/
def summarize_text (text : String) (max_length : ℤ) : String :=
  if text = "" then ""
  else
    let p0 := text.data.map Char.toLower
    let p1 := applySub matchTrektNiks p0
    let p2 := applySub matchAfEnToeViel p1
    let p3 := applySub matchEnigeMinpunt p2
    let p4 := applySub matchHelemaalStomme p3
    let p5 := applySub matchSomsWeg p4
    let comma_parts := splitCommaWs p5
    let sentences := comma_parts.flatMap (fun cp => (splitEn cp).flatMap splitSentences)
    let bullet_points := collectBullets sentences
    if bullet_points = [] then
      let first_words := (pySplit text).take 3
      let result_words := first_words.filter
        (fun w => !(summary_stopwords.contains (strLower w)))
      if result_words ≠ [] then capitalizeFirst (joinSep " " result_words)
      else joinSep " " first_words
    else if bullet_points.length = 1 then bullet_points.headI
    else joinSep "\n" (bullet_points.map (fun p => "• " ++ p))

/-! ### The batch analysis (`analyze_feedback_batch`) -/

/-- One feedback dictionary as consumed by `analyze_feedbatch_batch`:
identifier, the five nullable ratings and the free-text comment
(`extra_opmerkingen`, `''` when missing).  The `is_reviewed` flag, timestamp
and desk/building/department labels are display-only passthrough and not
modelled. -/
structure FeedbackRecord where
  feedback_id : Option ℤ
  netheid_score : Option ℤ
  wifi_score : Option ℤ
  ruimte_score : Option ℤ
  stilte_score : Option ℤ
  algemene_score : Option ℤ
  extra_opmerkingen : String
deriving Repr, DecidableEq

/-- The `scores` dictionary built per item (lines 595-601). -/
def scoresOf (f : FeedbackRecord) : Scores :=
  ⟨f.netheid_score, f.wifi_score, f.ruimte_score, f.stilte_score, f.algemene_score⟩

/-- The per-item analysis record appended to `analyzed_items`.  The TF-IDF
`key_phrases` field is not modelled (its values involve `Real.log`; no claim
concerns it), nor are the passthrough metadata fields. -/
structure AnalyzedItem where
  feedback_id : Option ℤ
  topics : List (String × ℚ)
  sentiment : SentimentResult
  scores : Scores
  urgency_score : ℚ
  basic_score : ℚ
  display_score : ℚ
  negative_comments_detected : Bool
  summary : String
  full_text : String
deriving Repr, DecidableEq

/-- The body of the per-item loop of `analyze_feedback_batch`
(lines 624-677). -/
def analyzeOne (f : FeedbackRecord) : AnalyzedItem :=
  let tokens := preprocess_text f.extra_opmerkingen
  let scores := scoresOf f
  let topics := detect_topics tokens
  let sentiment := extract_sentiment f.extra_opmerkingen scores
  let basic_score := calculate_basic_score scores
  let urgency := calculate_urgency_score sentiment scores topics
  let expected_urgency := 100 - basic_score
  { feedback_id := f.feedback_id
    topics := topics
    sentiment := sentiment
    scores := scores
    urgency_score := urgency
    basic_score := basic_score
    display_score := basic_score
    negative_comments_detected := decide (urgency > expected_urgency + 15)
    summary := summarize_text f.extra_opmerkingen 150
    full_text := f.extra_opmerkingen }

/-- `all_topics[topic] += relevance` on an insertion-ordered association
list (a Python `Counter` accumulating rationals). -/
def addCount : List (String × ℚ) → String → ℚ → List (String × ℚ)
  | [], k, v => [(k, v)]
  | p :: rest, k, v =>
    if p.1 = k then (p.1, p.2 + v) :: rest else p :: addCount rest k v

/-- `sentiment_counts[label] += 1` on an insertion-ordered association
list. -/
def addNat : List (String × ℕ) → String → List (String × ℕ)
  | [], k => [(k, 1)]
  | p :: rest, k =>
    if p.1 = k then (p.1, p.2 + 1) :: rest else p :: addNat rest k

/-- `score_aggregates[score_type].append(score_value)` on an
insertion-ordered association list (a `defaultdict(list)`). -/
def addAgg : List (String × List ℤ) → String → ℤ → List (String × List ℤ)
  | [], k, v => [(k, [v])]
  | p :: rest, k, v =>
    if p.1 = k then (p.1, p.2 ++ [v]) :: rest else p :: addAgg rest k v

/-- The `item['scores'].items()` iteration order (dict insertion order). -/
def scorePairs (s : Scores) : List (String × Option ℤ) :=
  [("netheid", s.netheid), ("wifi", s.wifi), ("ruimte", s.ruimte),
   ("stilte", s.stilte), ("algemeen", s.algemeen)]

/-- The cluster an item lands in (`cluster_feedback` loop body): its
highest-relevance topic, or `algemeen` when it has no topics. -/
def clusterKey (item : AnalyzedItem) : String :=
  match item.topics with
  | [] => "algemeen"
  | t :: _ => t.1

/-- `clusters[key].append(item)` on an insertion-ordered association list
(a `defaultdict(list)`). -/
def addToCluster : List (String × List AnalyzedItem) → String → AnalyzedItem →
    List (String × List AnalyzedItem)
  | [], k, it => [(k, [it])]
  | p :: rest, k, it =>
    if p.1 = k then (p.1, p.2 ++ [it]) :: rest else p :: addToCluster rest k it

/-- `cluster_feedback`: every analyzed item is appended to exactly one
cluster, keyed by its dominant topic or `algemeen`. -/
def cluster_feedback (items : List AnalyzedItem) : List (String × List AnalyzedItem) :=
  items.foldl (fun cs it => addToCluster cs (clusterKey it) it) []

/-- Ascending insertion sort on integers (for `np.median`). -/
def insertAscInt (x : ℤ) : List ℤ → List ℤ
  | [] => [x]
  | y :: ys => if x ≤ y then x :: y :: ys else y :: insertAscInt x ys

def sortAscInt : List ℤ → List ℤ
  | [] => []
  | x :: xs => insertAscInt x (sortAscInt xs)

/-- `np.median`: middle element of the sorted values, or the mean of the two
middle elements for an even count. -/
def medianOf (vs : List ℤ) : ℚ :=
  let sorted := sortAscInt vs
  let n := vs.length
  if n = 0 then 0
  else if n % 2 = 1 then ((sorted.getD (n / 2) 0 : ℤ) : ℚ)
  else (((sorted.getD (n / 2 - 1) 0 + sorted.getD (n / 2) 0 : ℤ) : ℚ)) / 2

/-- `np.std` squared: the population variance.  The standard deviation itself
is an irrational square root, so the embedding stores its square and squares
every threshold it is compared against (`std > 1.5` iff `var > 2.25`, both
sides being non-negative). -/
def varOf (vs : List ℤ) : ℚ :=
  if vs.length = 0 then 0
  else ((vs.map (fun v => ((v : ℚ) - listMean vs) ^ 2)).sum) / vs.length

/-- The per-rating-type statistics dictionary (`mean/median/std/min/max`,
with `std` represented by its square `var`). -/
structure ScoreStats where
  mean : ℚ
  median : ℚ
  var : ℚ
  min : ℚ
  max : ℚ
deriving Repr, DecidableEq

/-- `np.mean/median/std/min/max` over one rating type's collected values
(always called on a non-empty list). -/
def statsOf (vs : List ℤ) : ScoreStats :=
  { mean := listMean vs
    median := medianOf vs
    var := varOf vs
    min := (((sortAscInt vs).headD 0 : ℤ) : ℚ)
    max := (((sortAscInt vs).getLastD 0 : ℤ) : ℚ) }

/-- One generated insight.  The source renders each as a Dutch format
string; the embedding keeps the rule identity and the data interpolated into
the string, abstracting only the text rendering. -/
inductive Insight where
  | insufficientData : Insight
  | dominantTopic (topic : String) (count : ℤ) (total : ℕ) : Insight
  | mostlyPositive (pct : ℚ) : Insight
  | significantNegative (pct : ℚ) : Insight
  | lowScore (score_type : String) (mean : ℚ) : Insight
  | highScore (score_type : String) (mean : ℚ) : Insight
  | dominantCluster (cluster : String) (size : ℕ) (total : ℕ) : Insight
  | highVariance (score_type : String) (lo hi : ℚ) : Insight
  | bestScore (score_type : String) (mean : ℚ) : Insight
  | worstScore (score_type : String) (mean : ℚ) : Insight
  | totalReceived (n : ℕ) : Insight
deriving Repr, DecidableEq

/-- `_generate_insights`.  `int(x)` on the non-negative floats involved is
`⌊x⌋`; `int(total * 0.25)` is exactly `⌊total / 4⌋`, and for
`int(total * 0.4)` the double rounding of `0.4` never moves the product
across an integer, so it equals `⌊total * 2 / 5⌋`.  The percentage
comparisons against 60 and 40 likewise agree with exact rational
arithmetic. -/
def generate_insights (topics : List (String × ℚ)) (sentiments : List (String × ℕ))
    (score_stats : List (String × ScoreStats))
    (clusters : List (String × List AnalyzedItem))
    (analyzed_items : List AnalyzedItem) : List Insight :=
  let total_items := analyzed_items.length
  if total_items < 2 then [Insight.insufficientData]
  else
    let topicInsights : List Insight :=
      if topics ≠ [] then
        let real_topics := ((sortDescBy (fun p => p.2) topics).take 5).filter
          (fun p => p.1 ≠ "algemeen")
        match real_topics with
        | [] => []
        | top :: _ =>
          let topic_count : ℤ := ⌊top.2⌋
          let min_items_needed : ℤ :=
            if total_items < 10 then 2 else max 2 ⌊(total_items : ℚ) / 4⌋
          if topic_count ≥ min_items_needed then
            [Insight.dominantTopic top.1 topic_count total_items]
          else []
      else []
    let total_sentiment := (sentiments.map (fun p => p.2)).sum
    let sentimentInsights : List Insight :=
      if total_sentiment > 0 then
        let positive_pct : ℚ :=
          (((assocLookup "positief" sentiments).getD 0 : ℚ) / (total_sentiment : ℚ)) * 100
        let negative_pct : ℚ :=
          (((assocLookup "negatief" sentiments).getD 0 : ℚ) / (total_sentiment : ℚ)) * 100
        if positive_pct > 60 then [Insight.mostlyPositive positive_pct]
        else if negative_pct > 40 then [Insight.significantNegative negative_pct]
        else []
      else []
    let scoreInsights : List Insight := score_stats.flatMap (fun p =>
      if p.2.mean < 2.5 then [Insight.lowScore p.1 p.2.mean]
      else if p.2.mean > 4.0 then [Insight.highScore p.1 p.2.mean]
      else [])
    let clusterInsights : List Insight :=
      if clusters ≠ [] then
        let real_clusters := clusters.filter (fun p => p.1 ≠ "algemeen")
        match real_clusters with
        | [] => []
        | c :: cs =>
          let largest := cs.foldl (fun acc x => if x.2.length > acc.2.length then x else acc) c
          let min_cluster_size : ℤ :=
            if total_items < 10 then 2 else max 2 ⌊(total_items : ℚ) * 2 / 5⌋
          if (largest.2.length : ℤ) ≥ min_cluster_size then
            [Insight.dominantCluster largest.1 largest.2.length total_items]
          else []
      else []
    let varianceInsights : List Insight :=
      if total_items ≥ 4 then
        score_stats.flatMap (fun p =>
          if p.2.var > 9 / 4 then [Insight.highVariance p.1 p.2.min p.2.max] else [])
      else []
    let insights := topicInsights ++ sentimentInsights ++ scoreInsights
      ++ clusterInsights ++ varianceInsights
    if insights = [] then
      let best := score_stats.foldl (fun (acc : Option String × ℚ) p =>
        if p.2.mean > acc.2 then (some p.1, p.2.mean) else acc) (none, 0)
      let worst := score_stats.foldl (fun (acc : Option String × ℚ) p =>
        if p.2.mean < acc.2 then (some p.1, p.2.mean) else acc) (none, 6)
      let bestInsights := match best.1 with
        | some b => [Insight.bestScore b best.2]
        | none => []
      let worstInsights := match worst.1, best.1 with
        | some w, some b => if w ≠ b then [Insight.worstScore w worst.2] else []
        | some w, none => [Insight.worstScore w worst.2]
        | none, _ => []
      let fallback := bestInsights ++ worstInsights
      if fallback = [] then [Insight.totalReceived total_items] else fallback
    else insights

/-- The urgency histogram of `_calculate_urgency_distribution` (3 buckets:
`> 50`, `[25, 50]`, `< 25`). -/
structure UrgencyDistribution where
  onvoldoende : ℕ
  voldoende : ℕ
  uitstekend : ℕ
deriving Repr, DecidableEq

def calculate_urgency_distribution (sorted_feedback : List AnalyzedItem) :
    UrgencyDistribution :=
  sorted_feedback.foldl (fun d item =>
    if item.urgency_score > 50 then { d with onvoldoende := d.onvoldoende + 1 }
    else if item.urgency_score ≥ 25 then { d with voldoende := d.voldoende + 1 }
    else { d with uitstekend := d.uitstekend + 1 }) ⟨0, 0, 0⟩

/-- The result dictionary of `analyze_feedback_batch`.  The empty-batch
branch of the source builds a dictionary WITHOUT the `detailed_items` and
`urgency_distribution` keys; an absent key is modelled as `none`. -/
structure BatchResult where
  total_feedback : ℕ
  topics : List (String × ℚ)
  sentiment_distribution : List (String × ℕ)
  key_insights : List Insight
  score_statistics : List (String × ScoreStats)
  clusters : List (String × ℕ)
  urgent_feedback : List AnalyzedItem
  positive_feedback : List AnalyzedItem
  detailed_items : Option (List AnalyzedItem)
  urgency_distribution : Option UrgencyDistribution
deriving Repr, DecidableEq

/-- `analyze_feedback_batch`.  The corpus IDF (`self.idf_scores`) feeds only
the unmodelled per-item key phrases and is not recomputed here; everything
else follows the source line by line. -/
def analyze_feedback_batch (feedback_list : List FeedbackRecord) : BatchResult :=
  if feedback_list = [] then
    { total_feedback := 0
      topics := []
      sentiment_distribution := []
      key_insights := []
      score_statistics := []
      clusters := []
      urgent_feedback := []
      positive_feedback := []
      detailed_items := none
      urgency_distribution := none }
  else
    let analyzed_items := feedback_list.map analyzeOne
    let all_topics := analyzed_items.foldl
      (fun acc it => it.topics.foldl (fun a p => addCount a p.1 p.2) acc) []
    let sentiment_counts := analyzed_items.foldl
      (fun acc it => addNat acc it.sentiment.label) []
    let score_aggregates := analyzed_items.foldl
      (fun acc it => (scorePairs it.scores).foldl
        (fun a p => match p.2 with
          | some v => addAgg a p.1 v
          | none => a) acc) []
    let clusters := cluster_feedback analyzed_items
    let score_stats := score_aggregates.map (fun p => (p.1, statsOf p.2))
    let insights := generate_insights all_topics sentiment_counts score_stats
      clusters analyzed_items
    let sorted_feedback := sortDescBy (fun it => it.urgency_score) analyzed_items
    let urgent_feedback := sorted_feedback.filter (fun f => f.urgency_score > 50)
    let positive_feedback := sorted_feedback.filter (fun f => f.urgency_score < 25)
    { total_feedback := feedback_list.length
      topics := (sortDescBy (fun p => p.2) all_topics).take 10
      sentiment_distribution := sentiment_counts
      key_insights := insights
      score_statistics := score_stats
      clusters := clusters.map (fun p => (p.1, p.2.length))
      urgent_feedback := urgent_feedback.take 10
      positive_feedback := positive_feedback.drop (positive_feedback.length - 10)
      detailed_items := some (sorted_feedback.take 20)
      urgency_distribution := some (calculate_urgency_distribution sorted_feedback) }

/-- A batch of two identical feedback items whose comment mentions wifi among
four tokens: wifi occurs in 2 of 2 items, but each occurrence has relevance
1/4, so the relevance sum is 1/2. -/
def c5record1 : FeedbackRecord :=
  ⟨some 1, some 3, some 3, some 3, some 3, some 3, "wifi kantoor vandaag gezellig"⟩

def c5record2 : FeedbackRecord :=
  ⟨some 2, some 3, some 3, some 3, some 3, some 3, "wifi kantoor vandaag gezellig"⟩

/-- A minimal analyzed item with no topics (used as a concrete input for the
clustering properties). -/
def plainItem : AnalyzedItem :=
  ⟨none, [], ⟨0, "neutraal", 0, 0, 3⟩, ⟨none, none, none, none, none⟩, 0, 0, 0, false, "", ""⟩

/-! ## Helper lemmas -/

theorem filter_two_disjoint_length {p q : String → Bool}
    (hdisj : ∀ a, p a = true → q a = false) :
    ∀ l : List String, (l.filter p).length + (l.filter q).length ≤ l.length := by
  intro l
  induction l with
  | nil => simp
  | cons x xs ih =>
    by_cases hp : p x
    · have hq := hdisj x hp
      simp only [List.filter_cons, hp, hq, if_true, if_false, Bool.false_eq_true,
        List.length_cons]
      omega
    · by_cases hq : q x <;>
        simp only [List.filter_cons, hp, hq, if_true, if_false, Bool.false_eq_true,
          List.length_cons] <;> omega

theorem pos_neg_disjoint (a : String) (h : POSITIVE_WORDS.contains a = true) :
    NEGATIVE_WORDS.contains a = false := by
  have hall : POSITIVE_WORDS.all (fun t => !(NEGATIVE_WORDS.contains t)) = true := by decide
  have ha : a ∈ POSITIVE_WORDS := by
    simpa using h
  simpa using List.all_eq_true.mp hall a ha

theorem sum_int_bounds (l : List ℤ) (h : ∀ v ∈ l, 1 ≤ v ∧ v ≤ 5) :
    (l.length : ℤ) ≤ l.sum ∧ l.sum ≤ (l.length : ℤ) * 5 := by
  induction l with
  | nil => simp
  | cons x xs ih =>
    have hx := h x (List.mem_cons_self x xs)
    have hxs := ih (fun v hv => h v (List.mem_cons_of_mem x hv))
    simp only [List.sum_cons, List.length_cons]
    push_cast
    omega

theorem listMean_bounds (l : List ℤ) (hne : l ≠ []) (h : ∀ v ∈ l, 1 ≤ v ∧ v ≤ 5) :
    1 ≤ listMean l ∧ listMean l ≤ 5 := by
  have hlen : 0 < (l.length : ℚ) := by
    have := List.length_pos.mpr hne
    exact_mod_cast this
  have hb := sum_int_bounds l h
  have hb1 : (l.length : ℚ) ≤ (l.sum : ℚ) := by exact_mod_cast hb.1
  have hb2 : (l.sum : ℚ) ≤ (l.length : ℚ) * 5 := by exact_mod_cast hb.2
  unfold listMean
  constructor
  · rw [le_div_iff₀ hlen]
    linarith
  · rw [div_le_iff₀ hlen]
    linarith

theorem avgScore_bounds (scores : Scores)
    (h : ∀ v ∈ validScores scores, 1 ≤ v ∧ v ≤ 5) :
    1 ≤ avgScore scores ∧ avgScore scores ≤ 5 := by
  unfold avgScore
  by_cases hv : validScores scores = []
  · simp only [hv, if_true]
    norm_num
  · simp only [hv, if_false]
    exact listMean_bounds _ hv h

theorem posCount_add_negCount_le (text : String) :
    positiveCount text + negativeCount text ≤ (preprocess_text text).length :=
  le_trans (filter_two_disjoint_length pos_neg_disjoint (preprocess_text text).dedup)
    (preprocess_text text).dedup_sublist.length_le

theorem textSentimentNormalized_bounds (text : String) :
    -1 ≤ textSentimentNormalized text ∧ textSentimentNormalized text ≤ 1 := by
  have hsum := posCount_add_negCount_le text
  unfold textSentimentNormalized
  by_cases hlen : (preprocess_text text).length > 0
  · simp only [hlen, if_true]
    have hq : (0 : ℚ) < ((preprocess_text text).length : ℚ) := by exact_mod_cast hlen
    have hp : (positiveCount text : ℚ) ≤ ((preprocess_text text).length : ℚ) := by
      exact_mod_cast (by omega : positiveCount text ≤ (preprocess_text text).length)
    have hn : (negativeCount text : ℚ) ≤ ((preprocess_text text).length : ℚ) := by
      exact_mod_cast (by omega : negativeCount text ≤ (preprocess_text text).length)
    have hp0 : (0 : ℚ) ≤ (positiveCount text : ℚ) := by positivity
    have hn0 : (0 : ℚ) ≤ (negativeCount text : ℚ) := by positivity
    constructor
    · rw [le_div_iff₀ hq]
      push_cast
      linarith
    · rw [div_le_one hq]
      push_cast
      linarith
  · simp only [hlen, if_false]
    norm_num

theorem scoreSentimentNormalized_bounds (scores : Scores)
    (h : ∀ v ∈ validScores scores, 1 ≤ v ∧ v ≤ 5) :
    -1 ≤ scoreSentimentNormalized scores ∧ scoreSentimentNormalized scores ≤ 1 := by
  have := avgScore_bounds scores h
  unfold scoreSentimentNormalized
  constructor <;> [linarith [this.1]; linarith [this.2]]

theorem sentiment_label_spec (x : ℚ) :
    (sentiment_label x = "positief" ↔ 0.3 < x) ∧
    (sentiment_label x = "negatief" ↔ x < -0.3) ∧
    (sentiment_label x = "neutraal" ↔ -0.3 ≤ x ∧ x ≤ 0.3) := by
  unfold sentiment_label
  split_ifs with h1 h2
  · refine ⟨⟨fun _ => h1, fun _ => rfl⟩, ⟨fun hc => absurd hc (by decide), fun hc => ?_⟩,
      ⟨fun hc => absurd hc (by decide), fun hc => absurd h1 (not_lt.mpr hc.2)⟩⟩
    exact absurd h1 (not_lt.mpr (by linarith))
  · refine ⟨⟨fun hc => absurd hc (by decide), fun hc => absurd hc h1⟩,
      ⟨fun _ => h2, fun _ => rfl⟩,
      ⟨fun hc => absurd hc (by decide), fun hc => absurd h2 (not_lt.mpr hc.1)⟩⟩
  · refine ⟨⟨fun hc => absurd hc (by decide), fun hc => absurd hc h1⟩,
      ⟨fun hc => absurd hc (by decide), fun hc => absurd hc h2⟩,
      ⟨fun _ => ⟨not_lt.mp h2, not_lt.mp h1⟩, fun _ => rfl⟩⟩

/-! ## Claim theorems -/

/-- C1: `calculate_urgency_score` always returns a value in [0, 100]
(clamped at both ends by `max(0, min(urgency, 100))`), and when the rating
mapping contains no non-null ratings the base urgency component defaults
to 50. -/
theorem urgency_score_clamped (sentiment : SentimentResult) (scores : Scores)
    (topics : List (String × ℚ)) :
    0 ≤ calculate_urgency_score sentiment scores topics ∧
    calculate_urgency_score sentiment scores topics ≤ 100 ∧
    (validScores scores = [] → urgencyBase scores = 50) := by
  refine ⟨le_max_left 0 _, max_le (by norm_num) (min_le_right _ _), fun h => ?_⟩
  simp [urgencyBase, h]

/-- Witness for C1 at a concrete input: the all-ratings-missing mapping, for
which the base component is 50. -/
theorem urgency_score_clamped_witness :
    validScores ⟨none, none, none, none, none⟩ = [] ∧
    urgencyBase ⟨none, none, none, none, none⟩ = 50 :=
  ⟨by decide,
    (urgency_score_clamped ⟨0, "neutraal", 0, 0, 3⟩
      ⟨none, none, none, none, none⟩ []).2.2 (by decide)⟩

/-- C3 counterexample: the engine performs no validation at all.  The
constructor accepts `min_word_freq = 0` and simply stores it, and
`calculate_urgency_score` on a rating of 7 (outside the declared 1-5 domain)
produces an ordinary result (here 0) instead of failing. -/
theorem no_validation_counterexample :
    init 0 5 = ⟨0, 5⟩ ∧
    calculate_urgency_score ⟨0, "neutraal", 0, 0, 3⟩
      ⟨none, some 7, none, none, none⟩ [] = 0 := by
  refine ⟨rfl, ?_⟩
  have hv : validScores ⟨none, some 7, none, none, none⟩ = [7] := by decide
  simp only [calculate_urgency_score, urgencyUnclamped, urgencyBase, sentimentAddend,
    topicAddend, negWordAddend, hv]
  norm_num [min_def, max_def]

/-- C3 amended: the engine does not validate its inputs.  The constructor
stores any `min_word_freq`/`num_topics` (including zero and negative values)
without complaint, and `calculate_urgency_score` returns a normal, clamped
result for every rating mapping, including out-of-domain ratings. -/
theorem no_validation_amended (min_word_freq num_topics : ℤ)
    (sentiment : SentimentResult) (scores : Scores) (topics : List (String × ℚ)) :
    (init min_word_freq num_topics).min_word_freq = min_word_freq ∧
    (init min_word_freq num_topics).num_topics = num_topics ∧
    0 ≤ calculate_urgency_score sentiment scores topics ∧
    calculate_urgency_score sentiment scores topics ≤ 100 :=
  ⟨rfl, rfl, le_max_left 0 _, max_le (by norm_num) (min_le_right _ _)⟩


/-! ### Concrete evaluation lemmas (shared by witnesses and counterexamples) -/

theorem eval_preprocess_wifi : preprocess_text "wifi" = ["wifi"] := by decide

theorem eval_preprocess_empty : preprocess_text "" = [] := rfl

theorem eval_detect_empty : detect_topics [] = [] := rfl

theorem eval_detect_wifi : detect_topics ["wifi"] = [("wifi", 1)] := by
  simp +decide only [detect_topics, TOPIC_KEYWORDS, matchCount, List.filterMap_cons,
    List.filterMap_nil, sortDescBy, insertDescBy]
  norm_num [sortDescBy, insertDescBy]

theorem eval_textnorm_wifi : textSentimentNormalized "wifi" = 0 := by
  have h1 : positiveCount "wifi" = 0 := by decide
  have h2 : negativeCount "wifi" = 0 := by decide
  simp [textSentimentNormalized, eval_preprocess_wifi, h1, h2]

theorem eval_textnorm_empty : textSentimentNormalized "" = 0 := by
  simp [textSentimentNormalized, eval_preprocess_empty]

theorem eval_topicAddend_wifi : topicAddend [("wifi", 1)] = 10 := by
  norm_num [topicAddend, critical_topics, List.filter]

theorem eval_topicAddend_nil : topicAddend [] = 0 := rfl

theorem sentimentAddend_nonneg (x : ℚ) : 0 ≤ sentimentAddend x := by
  unfold sentimentAddend
  split_ifs <;> norm_num

theorem negWordAddend_nonneg (n : ℕ) : 0 ≤ negWordAddend n := by
  unfold negWordAddend
  split_ifs <;> norm_num

theorem urgencyBase_nonneg (scores : Scores)
    (h : ∀ v ∈ validScores scores, 1 ≤ v ∧ v ≤ 5) : 0 ≤ urgencyBase scores := by
  unfold urgencyBase
  by_cases hv : validScores scores = []
  · simp [hv]
  · have hlen : 0 < (validScores scores).length := List.length_pos.mpr hv
    have hlenq : (0 : ℚ) < ((validScores scores).length : ℚ) := by exact_mod_cast hlen
    have hb2 : ((validScores scores).sum : ℚ) ≤ ((validScores scores).length : ℚ) * 5 := by
      exact_mod_cast (sum_int_bounds (validScores scores) h).2
    have hdiv : ((validScores scores).sum : ℚ) / (((validScores scores).length : ℚ) * 5) ≤ 1 := by
      rw [div_le_one (by positivity)]
      linarith
    simp only [hv, ne_eq, not_false_iff, if_true]
    linarith

/-- C2: for every text and every rating mapping whose non-null values lie in
the 1-5 domain, the combined sentiment score equals the fixed 0.4/0.6 blend
of the two normalised components, lies in [-1, 1], and the label is
"positief" exactly when the score exceeds 0.3, "negatief" exactly when it is
below -0.3, and "neutraal" otherwise. -/
theorem sentiment_bounded_and_thresholds (text : String) (scores : Scores)
    (hdom : ∀ v ∈ validScores scores, 1 ≤ v ∧ v ≤ 5) :
    (extract_sentiment text scores).sentiment_score
        = 0.4 * textSentimentNormalized text + 0.6 * scoreSentimentNormalized scores ∧
    (-1 ≤ (extract_sentiment text scores).sentiment_score ∧
      (extract_sentiment text scores).sentiment_score ≤ 1) ∧
    ((extract_sentiment text scores).label = "positief" ↔
      0.3 < (extract_sentiment text scores).sentiment_score) ∧
    ((extract_sentiment text scores).label = "negatief" ↔
      (extract_sentiment text scores).sentiment_score < -0.3) ∧
    ((extract_sentiment text scores).label = "neutraal" ↔
      -0.3 ≤ (extract_sentiment text scores).sentiment_score ∧
        (extract_sentiment text scores).sentiment_score ≤ 0.3) := by
  have ht := textSentimentNormalized_bounds text
  have hs := scoreSentimentNormalized_bounds scores hdom
  have hlab := sentiment_label_spec ((extract_sentiment text scores).sentiment_score)
  have hscore : (extract_sentiment text scores).sentiment_score
      = 0.4 * textSentimentNormalized text + 0.6 * scoreSentimentNormalized scores := rfl
  have hlabel : (extract_sentiment text scores).label
      = sentiment_label ((extract_sentiment text scores).sentiment_score) := rfl
  refine ⟨hscore, ⟨?_, ?_⟩, ?_, ?_, ?_⟩
  · rw [hscore]
    linarith [ht.1, hs.1]
  · rw [hscore]
    linarith [ht.2, hs.2]
  · rw [hlabel]
    exact hlab.1
  · rw [hlabel]
    exact hlab.2.1
  · rw [hlabel]
    exact hlab.2.2

/-- Witness for C2 at a concrete input: a text containing a negative lexicon
word and in-domain ratings. -/
theorem sentiment_bounded_and_thresholds_witness :
    (∀ v ∈ validScores ⟨some 4, some 2, none, none, some 5⟩, 1 ≤ v ∧ v ≤ 5) ∧
    (-1 ≤ (extract_sentiment "De wifi is heel slecht en traag"
        ⟨some 4, some 2, none, none, some 5⟩).sentiment_score ∧
      (extract_sentiment "De wifi is heel slecht en traag"
        ⟨some 4, some 2, none, none, some 5⟩).sentiment_score ≤ 1) :=
  ⟨by decide,
    (sentiment_bounded_and_thresholds "De wifi is heel slecht en traag"
      ⟨some 4, some 2, none, none, some 5⟩ (by decide)).2.1⟩

/-- C6 counterexample: two items with identical all-ones ratings, one with
the critical-topic comment "wifi" and one with no comment, both clamp to
urgency 100 — the commented item does NOT score strictly higher. -/
theorem wifi_comment_not_strictly_higher :
    analyzeUrgency "wifi" ⟨some 1, some 1, some 1, some 1, some 1⟩
      = analyzeUrgency "" ⟨some 1, some 1, some 1, some 1, some 1⟩ ∧
    analyzeUrgency "" ⟨some 1, some 1, some 1, some 1, some 1⟩ = 100 := by
  have hv : validScores ⟨some 1, some 1, some 1, some 1, some 1⟩ = [1, 1, 1, 1, 1] := by
    decide
  have hn0 : negativeCount "" = 0 := by decide
  have hnw : negativeCount "wifi" = 0 := by decide
  have hbase : urgencyBase ⟨some 1, some 1, some 1, some 1, some 1⟩ = 80 := by
    norm_num [urgencyBase, hv]
    decide
  have havg : avgScore ⟨some 1, some 1, some 1, some 1, some 1⟩ = 1 := by
    norm_num [avgScore, hv, listMean]
    decide
  have hw : analyzeUrgency "wifi" ⟨some 1, some 1, some 1, some 1, some 1⟩ = 100 := by
    simp only [analyzeUrgency, eval_preprocess_wifi, eval_detect_wifi,
      calculate_urgency_score, urgencyUnclamped, extract_sentiment, eval_textnorm_wifi,
      hnw, eval_topicAddend_wifi, hbase, scoreSentimentNormalized, havg,
      sentimentAddend, negWordAddend]
    norm_num [min_def, max_def]
  have he : analyzeUrgency "" ⟨some 1, some 1, some 1, some 1, some 1⟩ = 100 := by
    simp only [analyzeUrgency, eval_preprocess_empty, eval_detect_empty,
      calculate_urgency_score, urgencyUnclamped, extract_sentiment, eval_textnorm_empty,
      hn0, eval_topicAddend_nil, hbase, scoreSentimentNormalized, havg,
      sentimentAddend, negWordAddend]
    norm_num [min_def, max_def]
  exact ⟨hw.trans he.symm, he⟩

/-- C6 amended: with identical in-domain ratings, the item whose comment is
the critical-topic keyword "wifi" scores strictly higher urgency than the
item with no comment, provided the shared components leave the no-comment
item's unclamped urgency below 100; at or above 100 both items clamp to 100
and are equal (see the counterexample). -/
theorem wifi_comment_strictly_higher (scores : Scores)
    (hdom : ∀ v ∈ validScores scores, 1 ≤ v ∧ v ≤ 5)
    (hroom : urgencyUnclamped (extract_sentiment "" scores) scores
      (detect_topics (preprocess_text "")) < 100) :
    analyzeUrgency "" scores < analyzeUrgency "wifi" scores := by
  have hdet : detect_topics (preprocess_text "") = [] := rfl
  rw [hdet] at hroom
  have hsame : (extract_sentiment "wifi" scores).sentiment_score
      = (extract_sentiment "" scores).sentiment_score := by
    show 0.4 * textSentimentNormalized "wifi" + 0.6 * scoreSentimentNormalized scores
      = 0.4 * textSentimentNormalized "" + 0.6 * scoreSentimentNormalized scores
    rw [eval_textnorm_wifi, eval_textnorm_empty]
  have hneg : (extract_sentiment "wifi" scores).negative_words
      = (extract_sentiment "" scores).negative_words := by
    show negativeCount "wifi" = negativeCount ""
    decide
  have hB : urgencyUnclamped (extract_sentiment "wifi" scores) scores [("wifi", 1)]
      = urgencyUnclamped (extract_sentiment "" scores) scores [] + 10 := by
    unfold urgencyUnclamped
    rw [hsame, hneg, eval_topicAddend_wifi, eval_topicAddend_nil]
    ring
  have hR0 : 0 ≤ urgencyUnclamped (extract_sentiment "" scores) scores [] := by
    unfold urgencyUnclamped
    have h1 := urgencyBase_nonneg scores hdom
    have h2 := sentimentAddend_nonneg ((extract_sentiment "" scores).sentiment_score)
    have h3 := negWordAddend_nonneg ((extract_sentiment "" scores).negative_words)
    rw [eval_topicAddend_nil]
    linarith
  have hA : analyzeUrgency "" scores
      = urgencyUnclamped (extract_sentiment "" scores) scores [] := by
    unfold analyzeUrgency
    rw [eval_preprocess_empty, eval_detect_empty]
    unfold calculate_urgency_score
    rw [min_eq_left (le_of_lt hroom), max_eq_right hR0]
  have hBfull : analyzeUrgency "wifi" scores
      = max 0 (min (urgencyUnclamped (extract_sentiment "" scores) scores [] + 10) 100) := by
    unfold analyzeUrgency
    rw [eval_preprocess_wifi, eval_detect_wifi]
    unfold calculate_urgency_score
    rw [hB]
  rw [hA, hBfull]
  have hlt : urgencyUnclamped (extract_sentiment "" scores) scores []
      < min (urgencyUnclamped (extract_sentiment "" scores) scores [] + 10) 100 :=
    lt_min (by linarith) hroom
  exact lt_of_lt_of_le hlt (le_max_right 0 _)

/-- Witness for C6 amended at a concrete input: all ratings 5, where the
no-comment unclamped urgency is 0 < 100 and the commented item scores 10. -/
theorem wifi_comment_strictly_higher_witness :
    (∀ v ∈ validScores ⟨some 5, some 5, some 5, some 5, some 5⟩, 1 ≤ v ∧ v ≤ 5) ∧
    urgencyUnclamped (extract_sentiment "" ⟨some 5, some 5, some 5, some 5, some 5⟩)
      ⟨some 5, some 5, some 5, some 5, some 5⟩
      (detect_topics (preprocess_text "")) < 100 ∧
    analyzeUrgency "" ⟨some 5, some 5, some 5, some 5, some 5⟩
      < analyzeUrgency "wifi" ⟨some 5, some 5, some 5, some 5, some 5⟩ := by
  have hdom : ∀ v ∈ validScores ⟨some 5, some 5, some 5, some 5, some 5⟩,
      1 ≤ v ∧ v ≤ 5 := by decide
  have hv : validScores ⟨some 5, some 5, some 5, some 5, some 5⟩ = [5, 5, 5, 5, 5] := by
    decide
  have hn0 : negativeCount "" = 0 := by decide
  have hbase : urgencyBase ⟨some 5, some 5, some 5, some 5, some 5⟩ = 0 := by
    norm_num [urgencyBase, hv]
    decide
  have havg : avgScore ⟨some 5, some 5, some 5, some 5, some 5⟩ = 5 := by
    norm_num [avgScore, hv, listMean]
    decide
  have hroom : urgencyUnclamped (extract_sentiment "" ⟨some 5, some 5, some 5, some 5, some 5⟩)
      ⟨some 5, some 5, some 5, some 5, some 5⟩
      (detect_topics (preprocess_text "")) < 100 := by
    simp only [eval_preprocess_empty, eval_detect_empty, urgencyUnclamped,
      extract_sentiment, eval_textnorm_empty, hn0, eval_topicAddend_nil, hbase,
      scoreSentimentNormalized, havg, sentimentAddend, negWordAddend]
    norm_num
  exact ⟨hdom, hroom, wifi_comment_strictly_higher ⟨some 5, some 5, some 5, some 5, some 5⟩
    hdom hroom⟩


/-! ### Sorting and topic-detection lemmas -/

theorem mem_insertDescBy {α : Type} (key : α → ℚ) (x y : α) (l : List α) :
    y ∈ insertDescBy key x l ↔ y = x ∨ y ∈ l := by
  induction l with
  | nil => simp [insertDescBy]
  | cons z zs ih =>
    unfold insertDescBy
    by_cases h : key x ≥ key z
    · simp [h]
    · simp only [h, if_false, List.mem_cons, ih]
      tauto

theorem mem_sortDescBy {α : Type} (key : α → ℚ) (x : α) (l : List α) :
    x ∈ sortDescBy key l ↔ x ∈ l := by
  induction l with
  | nil => simp [sortDescBy]
  | cons z zs ih => simp [sortDescBy, mem_insertDescBy, ih]

theorem pairwise_insertDescBy {α : Type} (key : α → ℚ) (x : α) (l : List α)
    (h : l.Pairwise (fun a b => key b ≤ key a)) :
    (insertDescBy key x l).Pairwise (fun a b => key b ≤ key a) := by
  induction l with
  | nil => simp [insertDescBy]
  | cons z zs ih =>
    rw [List.pairwise_cons] at h
    unfold insertDescBy
    by_cases hx : key x ≥ key z
    · simp only [hx, if_true]
      rw [List.pairwise_cons]
      refine ⟨?_, List.pairwise_cons.mpr h⟩
      intro y hy
      rcases List.mem_cons.mp hy with rfl | hyz
      · exact hx
      · exact le_trans (h.1 y hyz) hx
    · simp only [hx, if_false]
      rw [List.pairwise_cons]
      refine ⟨?_, ih h.2⟩
      intro y hy
      rcases (mem_insertDescBy key x y zs).mp hy with rfl | hyz
      · exact le_of_lt (not_le.mp hx)
      · exact h.1 y hyz

theorem pairwise_sortDescBy {α : Type} (key : α → ℚ) (l : List α) :
    (sortDescBy key l).Pairwise (fun a b => key b ≤ key a) := by
  induction l with
  | nil => simp [sortDescBy]
  | cons z zs ih => exact pairwise_insertDescBy key z (sortDescBy key zs) ih

theorem matchCount_le (tokens keywords : List String) :
    matchCount tokens keywords ≤ tokens.length :=
  le_trans (List.length_filter_le _ _) tokens.dedup_sublist.length_le

theorem assoc_unique {β : Type} (l : List (String × β))
    (hnd : (l.map Prod.fst).Nodup) (t : String) (b1 b2 : β)
    (h1 : (t, b1) ∈ l) (h2 : (t, b2) ∈ l) : b1 = b2 := by
  induction l with
  | nil => cases h1
  | cons x xs ih =>
    simp only [List.map_cons, List.nodup_cons] at hnd
    rcases List.mem_cons.mp h1 with heq1 | h1x
    · rcases List.mem_cons.mp h2 with heq2 | h2x
      · rw [← heq2] at heq1
        exact congrArg Prod.snd heq1
      · exfalso
        apply hnd.1
        rw [← heq1]
        exact List.mem_map.mpr ⟨(t, b2), h2x, rfl⟩
    · rcases List.mem_cons.mp h2 with heq2 | h2x
      · exfalso
        apply hnd.1
        rw [← heq2]
        exact List.mem_map.mpr ⟨(t, b1), h1x, rfl⟩
      · exact ih hnd.2 h1x h2x

/-- Membership in the distilled list `detect_topics` builds before sorting. -/
theorem detect_topics_mem_char (tokens : List String) (p : String × ℚ)
    (hp : p ∈ detect_topics tokens) :
    tokens ≠ [] ∧ ∃ kws, (p.1, kws) ∈ TOPIC_KEYWORDS ∧ 0 < matchCount tokens kws ∧
      p.2 = (matchCount tokens kws : ℚ) / (tokens.length : ℚ) := by
  unfold detect_topics at hp
  by_cases htok : tokens = []
  · simp [htok] at hp
  · simp only [htok, if_false] at hp
    rw [mem_sortDescBy] at hp
    obtain ⟨a, ha, hfa⟩ := List.mem_filterMap.mp hp
    by_cases hm : matchCount tokens a.2 > 0
    · simp only [hm, if_true] at hfa
      obtain rfl : (a.1, (matchCount tokens a.2 : ℚ) / (tokens.length : ℚ)) = p :=
        Option.some.inj hfa
      exact ⟨htok, a.2, ha, hm, rfl⟩
    · simp [hm] at hfa

/-- C8: `detect_topics` returns only topics with at least one keyword match,
each relevance equals the matched-keyword count divided by the token count
and lies in (0, 1], zero-match topics are omitted entirely, and the result is
sorted in descending order of relevance. -/
theorem detect_topics_spec (tokens : List String) :
    (∀ p ∈ detect_topics tokens,
      ∃ kws, (p.1, kws) ∈ TOPIC_KEYWORDS ∧ 0 < matchCount tokens kws ∧
        p.2 = (matchCount tokens kws : ℚ) / (tokens.length : ℚ) ∧
        0 < p.2 ∧ p.2 ≤ 1) ∧
    (∀ q ∈ TOPIC_KEYWORDS, matchCount tokens q.2 = 0 →
      ∀ r : ℚ, (q.1, r) ∉ detect_topics tokens) ∧
    (detect_topics tokens).Pairwise (fun a b => b.2 ≤ a.2) := by
  have hkeys : (TOPIC_KEYWORDS.map Prod.fst).Nodup := by decide
  refine ⟨?_, ?_, ?_⟩
  · intro p hp
    obtain ⟨htok, kws, hkw, hm, hrel⟩ := detect_topics_mem_char tokens p hp
    have hlen : 0 < tokens.length := List.length_pos.mpr htok
    have hlenq : (0 : ℚ) < (tokens.length : ℚ) := by exact_mod_cast hlen
    have hmq : (0 : ℚ) < (matchCount tokens kws : ℚ) := by exact_mod_cast hm
    have hle : (matchCount tokens kws : ℚ) ≤ (tokens.length : ℚ) := by
      exact_mod_cast matchCount_le tokens kws
    refine ⟨kws, hkw, hm, hrel, ?_, ?_⟩
    · rw [hrel]
      positivity
    · rw [hrel, div_le_one hlenq]
      exact hle
  · intro q hq hzero r hr
    obtain ⟨htok, kws, hkw, hm, hrel⟩ := detect_topics_mem_char tokens (q.1, r) hr
    have : kws = q.2 := assoc_unique TOPIC_KEYWORDS hkeys q.1 kws q.2 hkw hq
    rw [this, hzero] at hm
    exact lt_irrefl 0 hm
  · unfold detect_topics
    by_cases htok : tokens = []
    · simp [htok]
    · simp only [htok, if_false]
      exact pairwise_sortDescBy _ _

/-- Witness for C8 at a concrete input: tokens mentioning wifi and cleanliness
keywords. -/
theorem detect_topics_spec_witness :
    (("wifi", (1 : ℚ) / 3) ∈ detect_topics ["wifi", "schoon", "kantoor"] ∧
      0 < ((1 : ℚ) / 3) ∧ ((1 : ℚ) / 3) ≤ 1) ∧
    (∀ r : ℚ, ("locatie", r) ∉ detect_topics ["wifi", "schoon", "kantoor"]) := by
  have m1 : matchCount ["wifi", "schoon", "kantoor"]
      ["schoon", "vuil", "vies", "netjes", "proper", "smerig", "rommelig", "stoffig"] = 1 := by
    decide
  have m2 : matchCount ["wifi", "schoon", "kantoor"]
      ["wifi", "internet", "verbinding", "netwerk", "langzaam", "snel", "connectie"] = 1 := by
    decide
  have m3 : matchCount ["wifi", "schoon", "kantoor"]
      ["ruimte", "ruim", "krap", "klein", "groot", "plek", "plaats", "vol"] = 0 := by decide
  have m4 : matchCount ["wifi", "schoon", "kantoor"]
      ["stil", "lawaai", "geluid", "rustig", "luidruchtig", "herrie", "geluidsoverlast"] = 0 := by
    decide
  have m5 : matchCount ["wifi", "schoon", "kantoor"]
      ["comfortabel", "stoel", "bureau", "ergonomisch", "zit", "rug", "pijn"] = 0 := by decide
  have m6 : matchCount ["wifi", "schoon", "kantoor"]
      ["koffie", "toilet", "printer", "beamer", "apparatuur", "voorzieningen"] = 0 := by decide
  have m7 : matchCount ["wifi", "schoon", "kantoor"]
      ["warm", "koud", "temperatuur", "airco", "verwarming", "tocht"] = 0 := by decide
  have m8 : matchCount ["wifi", "schoon", "kantoor"]
      ["locatie", "bereikbaar", "parkeren", "afstand", "centraal", "ligging"] = 0 := by decide
  have hmem : ("wifi", (1 : ℚ) / 3) ∈ detect_topics ["wifi", "schoon", "kantoor"] := by
    simp only [detect_topics, TOPIC_KEYWORDS, List.filterMap_cons, List.filterMap_nil,
      m1, m2, m3, m4, m5, m6, m7, m8]
    norm_num [sortDescBy, insertDescBy]
    decide
  refine ⟨⟨hmem, by norm_num, by norm_num⟩, ?_⟩
  exact (detect_topics_spec ["wifi", "schoon", "kantoor"]).2.1
    ("locatie", ["locatie", "bereikbaar", "parkeren", "afstand", "centraal", "ligging"])
    (by decide) (by decide)


/-! ### TF-IDF lemmas -/

theorem assocLookup_mem {β : Type} (k : String) (l : List (String × β)) (v : β)
    (h : assocLookup k l = some v) : (k, v) ∈ l := by
  induction l with
  | nil => cases h
  | cons p rest ih =>
    cases p with
    | mk a b =>
      unfold assocLookup at h
      by_cases hp : a = k
      · subst hp
        simp only [if_pos rfl] at h
        injection h with hbv
        subst hbv
        exact List.mem_cons_self _ _
      · simp only [hp, if_false] at h
        exact List.mem_cons_of_mem _ (ih h)

theorem calculate_tf_nonneg (tokens : List String) (p : String × ℚ)
    (hp : p ∈ calculate_tf tokens) : 0 ≤ p.2 := by
  unfold calculate_tf at hp
  by_cases h : tokens = []
  · simp [h] at hp
  · simp only [h, if_false] at hp
    obtain ⟨t, ht, rfl⟩ := List.mem_map.mp hp
    simp only
    positivity

theorem docFreq_mem (documents : List (List String)) (t : String) (f : ℕ)
    (h : (t, f) ∈ docFreq documents) :
    f = numDocsContaining documents t ∧ 1 ≤ f ∧ f ≤ documents.length := by
  unfold docFreq at h
  obtain ⟨t', ht', heq⟩ := List.mem_map.mp h
  rw [Prod.mk.injEq] at heq
  obtain ⟨rfl, rfl⟩ := heq
  refine ⟨rfl, ?_, List.length_filter_le _ _⟩
  obtain ⟨d, hd, htd⟩ := List.mem_flatten.mp (List.mem_dedup.mp ht')
  have hdmem : d ∈ documents.filter (fun d => d.contains t') := by
    rw [List.mem_filter]
    exact ⟨hd, show d.elem t' = true from List.elem_iff.mpr htd⟩
  exact List.length_pos.mpr (List.ne_nil_of_mem hdmem)

theorem calculate_idf_mem (min_word_freq : ℤ) (documents : List (List String))
    (t : String) (w : ℝ) (h : (t, w) ∈ calculate_idf min_word_freq documents) :
    ∃ f : ℕ, (t, f) ∈ docFreq documents ∧ min_word_freq ≤ (f : ℤ) ∧
      w = Real.log ((documents.length : ℝ) / (f : ℝ)) := by
  unfold calculate_idf at h
  by_cases hd : documents = []
  · simp [hd] at h
  · simp only [hd, if_false] at h
    obtain ⟨p, hp, heq⟩ := List.mem_map.mp h
    rw [List.mem_filter] at hp
    rw [Prod.mk.injEq] at heq
    obtain ⟨h1, h2⟩ := heq
    refine ⟨p.2, ?_, by simpa using hp.2, h2.symm⟩
    rw [← h1]
    simpa using hp.1

theorem calculate_idf_nonneg (min_word_freq : ℤ) (documents : List (List String))
    (t : String) (w : ℝ) (h : (t, w) ∈ calculate_idf min_word_freq documents) :
    0 ≤ w := by
  obtain ⟨f, hf, hmwf, rfl⟩ := calculate_idf_mem min_word_freq documents t w h
  obtain ⟨hfe, hf1, hfn⟩ := docFreq_mem documents t f hf
  apply Real.log_nonneg
  have hfpos : (0 : ℝ) < (f : ℝ) := by exact_mod_cast hf1
  rw [one_le_div hfpos]
  exact_mod_cast hfn

/-- C7: every TF-IDF weight is non-negative, and a token appearing in every
document of a non-empty corpus (and meeting the minimum document frequency)
has IDF `log 1 = 0` and therefore TF-IDF weight 0 in every document,
regardless of its frequency. -/
theorem tfidf_nonneg_and_ubiquitous_zero (min_word_freq : ℤ)
    (documents : List (List String)) (tokens : List String) :
    (∀ p ∈ calculate_tfidf (calculate_tf tokens) (calculate_idf min_word_freq documents),
      0 ≤ p.2) ∧
    (∀ t : String, documents ≠ [] → (∀ d ∈ documents, t ∈ d) →
      min_word_freq ≤ (documents.length : ℤ) →
      (t, (0 : ℝ)) ∈ calculate_idf min_word_freq documents ∧
      (∀ w : ℝ, (t, w) ∈ calculate_idf min_word_freq documents → w = 0) ∧
      (∀ w : ℝ, (t, w) ∈ calculate_tfidf (calculate_tf tokens)
          (calculate_idf min_word_freq documents) → w = 0)) := by
  constructor
  · intro p hp
    unfold calculate_tfidf at hp
    obtain ⟨q, hq, hfq⟩ := List.mem_filterMap.mp hp
    cases hlk : assocLookup q.1 (calculate_idf min_word_freq documents) with
    | none =>
      rw [hlk] at hfq
      cases hfq
    | some i =>
      rw [hlk] at hfq
      simp only [Option.map_some'] at hfq
      obtain rfl := Option.some.inj hfq
      have h1 : (0 : ℚ) ≤ q.2 := calculate_tf_nonneg tokens q hq
      have h2 : (0 : ℝ) ≤ i :=
        calculate_idf_nonneg min_word_freq documents q.1 i
          (assocLookup_mem q.1 _ i hlk)
      have h1r : (0 : ℝ) ≤ (q.2 : ℝ) := by exact_mod_cast h1
      exact mul_nonneg h1r h2
  · intro t hne hall hm
    have hnum : numDocsContaining documents t = documents.length := by
      unfold numDocsContaining
      rw [List.filter_eq_self.mpr]
      intro d hd
      exact show d.elem t = true from List.elem_iff.mpr (hall d hd)
    have hdivone : ((documents.length : ℝ) / ((documents.length : ℕ) : ℝ)) = 1 := by
      have hpos : (0 : ℝ) < (documents.length : ℝ) := by
        exact_mod_cast List.length_pos.mpr hne
      field_simp
    have hmemdf : (t, documents.length) ∈ docFreq documents := by
      unfold docFreq
      apply List.mem_map.mpr
      refine ⟨t, ?_, by rw [hnum]⟩
      rw [List.mem_dedup]
      obtain ⟨d, hd⟩ := List.exists_mem_of_ne_nil documents hne
      exact List.mem_flatten.mpr ⟨d, hd, hall d hd⟩
    have hidfmem : (t, (0 : ℝ)) ∈ calculate_idf min_word_freq documents := by
      unfold calculate_idf
      simp only [hne, if_false]
      apply List.mem_map.mpr
      refine ⟨(t, documents.length), ?_, ?_⟩
      · rw [List.mem_filter]
        exact ⟨hmemdf, by simpa using hm⟩
      · simp only
        rw [hdivone, Real.log_one]
    have hidfall : ∀ w : ℝ, (t, w) ∈ calculate_idf min_word_freq documents → w = 0 := by
      intro w hw
      obtain ⟨f, hf, hmwf, rfl⟩ := calculate_idf_mem min_word_freq documents t w hw
      have hfe := (docFreq_mem documents t f hf).1
      rw [hfe, hnum, hdivone, Real.log_one]
    refine ⟨hidfmem, hidfall, ?_⟩
    intro w hw
    unfold calculate_tfidf at hw
    obtain ⟨q, hq, hfq⟩ := List.mem_filterMap.mp hw
    cases hlk : assocLookup q.1 (calculate_idf min_word_freq documents) with
    | none =>
      rw [hlk] at hfq
      cases hfq
    | some i =>
      rw [hlk] at hfq
      simp only [Option.map_some'] at hfq
      have heq := Option.some.inj hfq
      rw [Prod.mk.injEq] at heq
      obtain ⟨hq1, hq2⟩ := heq
      have hiz : i = 0 := by
        apply hidfall
        rw [← hq1]
        exact assocLookup_mem q.1 _ i hlk
      rw [← hq2, hiz, mul_zero]

/-- Witness for C7 at a concrete corpus: "wifi" occurs in both documents of a
two-document corpus and meets the minimum document frequency 2, so its IDF
entry is 0. -/
theorem tfidf_nonneg_and_ubiquitous_zero_witness :
    (([["wifi"], ["wifi", "slecht"]] : List (List String)) ≠ []) ∧
    (∀ d ∈ ([["wifi"], ["wifi", "slecht"]] : List (List String)), "wifi" ∈ d) ∧
    ((2 : ℤ) ≤ ((([["wifi"], ["wifi", "slecht"]] : List (List String)).length : ℕ) : ℤ)) ∧
    ("wifi", (0 : ℝ)) ∈ calculate_idf 2 [["wifi"], ["wifi", "slecht"]] := by
  refine ⟨by decide, by decide, by decide, ?_⟩
  exact ((tfidf_nonneg_and_ubiquitous_zero 2 [["wifi"], ["wifi", "slecht"]] []).2 "wifi"
    (by decide) (by decide) (by decide)).1


/-- C10: `summarize_text` never reads its `max_length` parameter (the source
docstring itself says it is "genegeerd"), so any two values produce
identical output for every text. -/
theorem summarize_text_ignores_max_length (text : String) (a b : ℤ) :
    summarize_text text a = summarize_text text b := rfl


/-! ### Clustering and batch lemmas -/

theorem sum_addToCluster (cs : List (String × List AnalyzedItem)) (k : String)
    (it : AnalyzedItem) :
    ((addToCluster cs k it).map (fun p => p.2.length)).sum
      = ((cs.map (fun p => p.2.length)).sum) + 1 := by
  induction cs with
  | nil => simp [addToCluster]
  | cons p rest ih =>
    unfold addToCluster
    by_cases h : p.1 = k
    · simp only [h, if_true, List.map_cons, List.sum_cons, List.length_append,
        List.length_singleton]
      omega
    · simp only [h, if_false, List.map_cons, List.sum_cons, ih]
      omega

theorem sum_cluster_go (items : List AnalyzedItem) :
    ∀ acc : List (String × List AnalyzedItem),
      ((items.foldl (fun cs it => addToCluster cs (clusterKey it) it) acc).map
        (fun p => p.2.length)).sum = (acc.map (fun p => p.2.length)).sum + items.length := by
  induction items with
  | nil =>
    intro acc
    simp
  | cons x xs ih =>
    intro acc
    simp only [List.foldl_cons, List.length_cons]
    rw [ih (addToCluster acc (clusterKey x) x), sum_addToCluster]
    omega

theorem sum_cluster_feedback (items : List AnalyzedItem) :
    ((cluster_feedback items).map (fun p => p.2.length)).sum = items.length := by
  unfold cluster_feedback
  rw [sum_cluster_go items []]
  simp

theorem addToCluster_keyed (cs : List (String × List AnalyzedItem)) (k : String)
    (it : AnalyzedItem) (h : ∀ kv ∈ cs, ∀ i ∈ kv.2, clusterKey i = kv.1)
    (hk : clusterKey it = k) :
    ∀ kv ∈ addToCluster cs k it, ∀ i ∈ kv.2, clusterKey i = kv.1 := by
  induction cs with
  | nil =>
    intro kv hkv i hi
    simp only [addToCluster, List.mem_singleton] at hkv
    subst hkv
    simp only [List.mem_singleton] at hi
    subst hi
    exact hk
  | cons p rest ih =>
    intro kv hkv i hi
    unfold addToCluster at hkv
    by_cases hpk : p.1 = k
    · simp only [hpk, if_true] at hkv
      rcases List.mem_cons.mp hkv with rfl | hkvr
      · rcases List.mem_append.mp hi with hip | hiit
        · exact (h p (List.mem_cons_self p rest) i hip).trans hpk
        · simp only [List.mem_singleton] at hiit
          subst hiit
          exact hk
      · exact h kv (List.mem_cons_of_mem p hkvr) i hi
    · simp only [hpk, if_false] at hkv
      rcases List.mem_cons.mp hkv with rfl | hkvr
      · exact h kv (List.mem_cons_self kv rest) i hi
      · exact ih (fun kv2 hkv2 => h kv2 (List.mem_cons_of_mem p hkv2)) kv hkvr i hi

theorem cluster_go_keyed (items : List AnalyzedItem) :
    ∀ acc : List (String × List AnalyzedItem),
      (∀ kv ∈ acc, ∀ i ∈ kv.2, clusterKey i = kv.1) →
      ∀ kv ∈ items.foldl (fun cs it => addToCluster cs (clusterKey it) it) acc,
        ∀ i ∈ kv.2, clusterKey i = kv.1 := by
  induction items with
  | nil =>
    intro acc hacc
    simpa using hacc
  | cons x xs ih =>
    intro acc hacc
    simp only [List.foldl_cons]
    exact ih (addToCluster acc (clusterKey x) x) (addToCluster_keyed acc (clusterKey x) x hacc rfl)

theorem cluster_feedback_keyed (items : List AnalyzedItem) :
    ∀ kv ∈ cluster_feedback items, ∀ i ∈ kv.2, clusterKey i = kv.1 :=
  cluster_go_keyed items [] (by simp)

/-- C4 counterexample: the empty-batch result of `analyze_feedback_batch`
does NOT carry the capped detailed item list nor the urgency-bucket
histogram — those two dictionary keys exist only in the non-empty branch
(an absent key is modelled as `none`). -/
theorem empty_batch_missing_keys :
    (analyze_feedback_batch []).detailed_items = none ∧
    (analyze_feedback_batch []).urgency_distribution = none ∧
    (analyze_feedback_batch
      [⟨none, none, none, none, none, none, ""⟩]).detailed_items.isSome = true ∧
    (analyze_feedback_batch
      [⟨none, none, none, none, none, none, ""⟩]).urgency_distribution.isSome = true :=
  ⟨rfl, rfl, rfl, rfl⟩

/-- C4 amended: an empty input batch returns, without raising, a result with
total count zero and the eight collection fields of the empty branch present
and empty — but the detailed item list and the urgency-bucket histogram keys
are absent from the empty result, unlike the non-empty case. -/
theorem empty_batch_result :
    analyze_feedback_batch [] =
      { total_feedback := 0
        topics := []
        sentiment_distribution := []
        key_insights := []
        score_statistics := []
        clusters := []
        urgent_feedback := []
        positive_feedback := []
        detailed_items := none
        urgency_distribution := none } := rfl

/-- C9: every analyzed item lands in exactly one cluster (named after its
highest-relevance topic, or `algemeen` when it has none), so the cluster
sizes reported in the batch result sum to the total number of analyzed
items. -/
theorem cluster_sizes_sum_to_total (feedback_list : List FeedbackRecord) :
    (((analyze_feedback_batch feedback_list).clusters.map (fun p => p.2)).sum
      = (analyze_feedback_batch feedback_list).total_feedback) ∧
    (∀ items : List AnalyzedItem, ∀ kv ∈ cluster_feedback items, ∀ it ∈ kv.2,
      clusterKey it = kv.1) := by
  constructor
  · by_cases h : feedback_list = []
    · subst h
      rfl
    · rw [show analyze_feedback_batch feedback_list
          = if feedback_list = [] then _ else _ from rfl, if_neg h]
      simp only [List.map_map]
      have hs := sum_cluster_feedback (feedback_list.map analyzeOne)
      simpa [Function.comp, List.length_map] using hs
  · intro items
    exact cluster_feedback_keyed items


/-! ### Concrete evaluation of the C5 batch -/

theorem c5_tokens : preprocess_text "wifi kantoor vandaag gezellig"
    = ["wifi", "kantoor", "vandaag", "gezellig"] := by decide

theorem c5_topics : detect_topics ["wifi", "kantoor", "vandaag", "gezellig"]
    = [("wifi", 1 / 4)] := by
  have m1 : matchCount ["wifi", "kantoor", "vandaag", "gezellig"]
      ["schoon", "vuil", "vies", "netjes", "proper", "smerig", "rommelig", "stoffig"] = 0 := by
    decide
  have m2 : matchCount ["wifi", "kantoor", "vandaag", "gezellig"]
      ["wifi", "internet", "verbinding", "netwerk", "langzaam", "snel", "connectie"] = 1 := by
    decide
  have m3 : matchCount ["wifi", "kantoor", "vandaag", "gezellig"]
      ["ruimte", "ruim", "krap", "klein", "groot", "plek", "plaats", "vol"] = 0 := by decide
  have m4 : matchCount ["wifi", "kantoor", "vandaag", "gezellig"]
      ["stil", "lawaai", "geluid", "rustig", "luidruchtig", "herrie", "geluidsoverlast"] = 0 := by
    decide
  have m5 : matchCount ["wifi", "kantoor", "vandaag", "gezellig"]
      ["comfortabel", "stoel", "bureau", "ergonomisch", "zit", "rug", "pijn"] = 0 := by decide
  have m6 : matchCount ["wifi", "kantoor", "vandaag", "gezellig"]
      ["koffie", "toilet", "printer", "beamer", "apparatuur", "voorzieningen"] = 0 := by decide
  have m7 : matchCount ["wifi", "kantoor", "vandaag", "gezellig"]
      ["warm", "koud", "temperatuur", "airco", "verwarming", "tocht"] = 0 := by decide
  have m8 : matchCount ["wifi", "kantoor", "vandaag", "gezellig"]
      ["locatie", "bereikbaar", "parkeren", "afstand", "centraal", "ligging"] = 0 := by decide
  simp only [detect_topics, TOPIC_KEYWORDS, List.filterMap_cons, List.filterMap_nil,
    m1, m2, m3, m4, m5, m6, m7, m8]
  norm_num [sortDescBy, insertDescBy]
  decide

theorem c5_sentiment : extract_sentiment "wifi kantoor vandaag gezellig"
    ⟨some 3, some 3, some 3, some 3, some 3⟩ = ⟨0, "neutraal", 0, 0, 3⟩ := by
  have hv : validScores ⟨some 3, some 3, some 3, some 3, some 3⟩ = [3, 3, 3, 3, 3] := by decide
  have hp : positiveCount "wifi kantoor vandaag gezellig" = 0 := by decide
  have hn : negativeCount "wifi kantoor vandaag gezellig" = 0 := by decide
  have havg : avgScore ⟨some 3, some 3, some 3, some 3, some 3⟩ = 3 := by
    norm_num [avgScore, hv, listMean]
  have htn : textSentimentNormalized "wifi kantoor vandaag gezellig" = 0 := by
    simp [textSentimentNormalized, c5_tokens, hp, hn]
  simp only [extract_sentiment, htn, scoreSentimentNormalized, havg, hp, hn]
  norm_num [sentiment_label]

theorem c5_item_topics1 : (analyzeOne c5record1).topics = [("wifi", 1 / 4)] := by
  show detect_topics (preprocess_text "wifi kantoor vandaag gezellig") = [("wifi", 1 / 4)]
  rw [c5_tokens, c5_topics]

theorem c5_item_topics2 : (analyzeOne c5record2).topics = [("wifi", 1 / 4)] := by
  show detect_topics (preprocess_text "wifi kantoor vandaag gezellig") = [("wifi", 1 / 4)]
  rw [c5_tokens, c5_topics]

theorem c5_item_sent1 : (analyzeOne c5record1).sentiment = ⟨0, "neutraal", 0, 0, 3⟩ := by
  show extract_sentiment "wifi kantoor vandaag gezellig" (scoresOf c5record1) = _
  exact c5_sentiment

theorem c5_item_sent2 : (analyzeOne c5record2).sentiment = ⟨0, "neutraal", 0, 0, 3⟩ := by
  show extract_sentiment "wifi kantoor vandaag gezellig" (scoresOf c5record2) = _
  exact c5_sentiment

theorem c5_stats : statsOf [3, 3] = ⟨3, 3, 0, 3, 3⟩ := by
  norm_num [statsOf, listMean, medianOf, varOf, sortAscInt, insertAscInt]

theorem c5_ck1 : clusterKey (analyzeOne c5record1) = "wifi" := by
  unfold clusterKey
  rw [c5_item_topics1]

theorem c5_ck2 : clusterKey (analyzeOne c5record2) = "wifi" := by
  unfold clusterKey
  rw [c5_item_topics2]

theorem c5_gen : generate_insights [("wifi", 1 / 2)] [("neutraal", 2)]
    [("netheid", ⟨3, 3, 0, 3, 3⟩), ("wifi", ⟨3, 3, 0, 3, 3⟩), ("ruimte", ⟨3, 3, 0, 3, 3⟩),
      ("stilte", ⟨3, 3, 0, 3, 3⟩), ("algemeen", ⟨3, 3, 0, 3, 3⟩)]
    [("wifi", [analyzeOne c5record1, analyzeOne c5record2])]
    [analyzeOne c5record1, analyzeOne c5record2]
    = [Insight.dominantCluster "wifi" 2 2] := by
  have hfl : ⌊(1 : ℚ) / 2⌋ = 0 := by norm_num
  simp +decide only [generate_insights, sortDescBy, insertDescBy, assocLookup,
    List.filter_cons, List.filter_nil, List.length_cons, List.length_nil, List.take,
    List.foldl_cons, List.foldl_nil, List.flatMap_cons, List.flatMap_nil]
  norm_num [hfl]

theorem c5_insights :
    (analyze_feedback_batch [c5record1, c5record2]).key_insights
      = [Insight.dominantCluster "wifi" 2 2] := by
  have hne : ([c5record1, c5record2] : List FeedbackRecord) ≠ [] := List.cons_ne_nil _ _
  have hscores1 : (analyzeOne c5record1).scores = ⟨some 3, some 3, some 3, some 3, some 3⟩ := rfl
  have hscores2 : (analyzeOne c5record2).scores = ⟨some 3, some 3, some 3, some 3, some 3⟩ := rfl
  have hat : addCount (addCount [] "wifi" (1 / 4)) "wifi" (1 / 4) = [("wifi", (1 : ℚ) / 2)] := by
    norm_num [addCount]
  simp +decide only [analyze_feedback_batch, List.map_cons, List.map_nil,
    List.foldl_cons, List.foldl_nil, c5_item_topics1, c5_item_topics2,
    c5_item_sent1, c5_item_sent2, hscores1, hscores2, cluster_feedback,
    hat, addNat, addAgg, scorePairs, addToCluster, c5_ck1, c5_ck2, c5_stats,
    List.cons_append, List.nil_append, List.singleton_append, if_true, if_false]
  exact c5_gen

/-- C5 (code bug evaluation): on a batch of 2 items whose comments both
mention wifi (1 keyword among 4 tokens each), the most frequent non-general
topic wifi occurs in 2 of 2 items, meeting the claimed size threshold of 2,
yet the generated insights contain no dominant-topic insight — only the
cluster insight — because the code applies the threshold to
`int(sum of relevances)` = `⌊1/4 + 1/4⌋` = 0 rather than to the item
count. -/
theorem dominant_topic_insight_missing :
    (analyze_feedback_batch [c5record1, c5record2]).key_insights
        = [Insight.dominantCluster "wifi" 2 2] ∧
    "wifi" ∈ (analyzeOne c5record1).topics.map Prod.fst ∧
    "wifi" ∈ (analyzeOne c5record2).topics.map Prod.fst ∧
    (analyze_feedback_batch [c5record1, c5record2]).total_feedback = 2 := by
  refine ⟨c5_insights, ?_, ?_, rfl⟩
  · rw [c5_item_topics1]
    simp
  · rw [c5_item_topics2]
    simp

/-- Witness for C9 at a concrete input: a single item with no topics lands in
the fallback `algemeen` cluster. -/
theorem cluster_sizes_sum_to_total_witness :
    (("algemeen", [plainItem]) ∈ cluster_feedback [plainItem]) ∧
    plainItem ∈ [plainItem] ∧
    clusterKey plainItem = "algemeen" := by
  have hmem : ("algemeen", [plainItem]) ∈ cluster_feedback [plainItem] :=
    List.mem_singleton.mpr rfl
  exact ⟨hmem, List.mem_singleton.mpr rfl,
    (cluster_sizes_sum_to_total []).2 [plainItem] ("algemeen", [plainItem]) hmem
      plainItem (List.mem_singleton.mpr rfl)⟩

end Analytics
